import Mathlib

/-!
# Track_Hacker — verification of the click-capture / enrichment core

Shallow embedding of `src/index.js` (a click-tracking HTTP server).
JavaScript values appearing in handler code are modelled by `JVal`;
JS numbers are modelled by `Rat` (JSON payloads carry finite decimals);
the WHATWG `URL` platform parser and the `Number` string coercion are
opaque platform collaborators and are passed in as parameters; the
SQLite store is modelled as a list of rows keyed by `id`.
-/

namespace TrackHacker

/-- A JavaScript value as it can appear in a parsed JSON request body or
a query/cookie slot: `undef` models both an absent property and
`undefined`. -/
inductive JVal where
  | undef
  | null
  | num (x : Rat)
  | str (s : String)
  | bool (b : Bool)
  | arr (xs : List JVal)
  deriving Repr

/-- JavaScript truthiness (`if (v)`, `v ? a : b`).  `undefined`, `null`,
`0`, the empty string and `false` are falsy; every array (even empty) is truthy.
(`NaN` is not representable in the `Rat` model; JSON bodies cannot carry
it.) -/
def jsTruthy : JVal → Bool
  | .undef => false
  | .null => false
  | .num x => x ≠ 0
  | .str s => s ≠ ""
  | .bool b => b
  | .arr _ => true

/-- Rendering of a `Rat` used by the model of `String(v)`: a stand-in for
ECMAScript number-to-string (the claims under verification never depend
on the exact digits of a rendered number). -/
def ratToString (x : Rat) : String :=
  if x.den = 1 then toString x.num else toString x.num ++ "." ++ toString x.den

/-- The model of the `String(v)` coercion. -/
def jsToString : JVal → String
  | .undef => "undefined"
  | .null => "null"
  | .num x => ratToString x
  | .str s => s
  | .bool b => if b then "true" else "false"
  | .arr _ => ""

/-- `Array.prototype.join` renders `null`/`undefined` elements as the
empty string and all others via `String(v)`. -/
def jsJoinElem : JVal → String
  | .undef => ""
  | .null => ""
  | v => jsToString v

/-- The comma join `xs.join` on a JS array. -/
def jsJoin (xs : List JVal) : String :=
  String.intercalate "," (xs.map jsJoinElem)

/-- The check `typeof v` equals the number tag. -/
def JVal.isNum : JVal → Bool
  | .num _ => true
  | _ => false

/-! ## Redirect/Destination Validator (`safeRedirectUrl`, index.js 145–159) -/

/-- Result of a successful `new URL(input)` call: the scheme with its
trailing colon (`parsed.protocol`) and the canonical serialization
(`parsed.toString()`). -/
structure URLParsed where
  protocol : String
  canonical : String
  deriving DecidableEq, Repr

/-- The WHATWG URL parser behind `new URL`, an external platform
collaborator (the spec treats platform parsing as opaque): `parse s`
is `some` exactly when `new URL(s)` does not throw. -/
structure URLModel where
  parse : String → Option URLParsed

/-- The argument slot of `safeRedirectUrl`: the raw value may be absent,
a non-string JS value, or a string. -/
inductive JInput where
  | absent
  | nonString
  | str (s : String)
  deriving DecidableEq, Repr

/-- `REDIRECT_DEFAULT` (index.js line 20, with no environment override). -/
def REDIRECT_DEFAULT : String := "https://example.com"

/-- `safeRedirectUrl` (index.js 145–159).  Strings are modelled with
`String.length` standing for the JS code-unit length.  Note `!input`
also sends the empty string to the fallback. -/
def safeRedirectUrl (M : URLModel) (input : JInput) : String :=
  match input with
  | .absent => REDIRECT_DEFAULT
  | .nonString => REDIRECT_DEFAULT
  | .str s =>
    if s = "" then REDIRECT_DEFAULT
    else if s.length > 2048 then REDIRECT_DEFAULT
    else
      match M.parse s with
      | none => REDIRECT_DEFAULT
      | some p =>
        if p.protocol ≠ "http:" ∧ p.protocol ≠ "https:" then REDIRECT_DEFAULT
        else p.canonical

/-- A concrete instance of the platform URL parser, for evaluating the
validator on closed inputs: it accepts exactly `http://a` (canonical
form `http://a/`) and `ftp://a`. -/
def urlModelEx : URLModel :=
  ⟨fun s =>
    if s = "http://a" then some ⟨"http:", "http://a/"⟩
    else if s = "ftp://a" then some ⟨"ftp:", "ftp://a/"⟩
    else none⟩

/-! ## Click Record Store: the `clicks` table (index.js 47–130) -/

/-- One row of the `clicks` table.  Capture-time text fields are always
written as strings by `insertClickStmt`; nullable columns are `Option`;
SQL `REAL`/`INTEGER` values arriving from JS numbers are modelled as
`Rat`; the `consented` flag is stored as the integer the handler
computes (`0`/`1`). -/
structure ClickRecord where
  id : String
  created_at : String
  ip : String
  ip_chain : String
  user_agent : String
  accept_language : String
  referrer : String
  dest_url : String
  approx_country : Option String
  approx_region : Option String
  approx_city : Option String
  approx_lat : Option Rat
  approx_lon : Option Rat
  approx_accuracy_km : Option Rat
  precise_lat : Option Rat
  precise_lon : Option Rat
  precise_accuracy_m : Option Rat
  precise_timestamp : Option String
  consented : Nat
  device_platform : Option String
  device_vendor : Option String
  device_language : Option String
  device_languages : Option String
  device_timezone : Option String
  device_hardware_concurrency : Option Rat
  device_memory_gb : Option Rat
  device_screen_w : Option Rat
  device_screen_h : Option Rat
  device_color_depth : Option Rat
  do_not_track : Option Nat
  deriving DecidableEq, Repr

/-- The named parameters bound into `updateGeoStmt.run` by the
`/api/geo` handler (index.js 370–378), apart from `id`. -/
structure GeoParams where
  precise_lat : Option Rat
  precise_lon : Option Rat
  precise_accuracy_m : Option Rat
  precise_timestamp : String
  consented : Nat
  device_platform : Option String
  device_vendor : Option String
  device_language : Option String
  device_languages : Option String
  device_timezone : Option String
  device_hardware_concurrency : Option Rat
  device_memory_gb : Option Rat
  device_screen_w : Option Rat
  device_screen_h : Option Rat
  device_color_depth : Option Rat
  do_not_track : Nat
  deriving DecidableEq, Repr

/-- The effect of `updateGeoStmt` (index.js 111–130) on one matching
row: it SETs exactly the sixteen enrichment/device columns listed in
the statement and no others. -/
def applyGeoUpdate (r : ClickRecord) (p : GeoParams) : ClickRecord :=
  { r with
    precise_lat := p.precise_lat
    precise_lon := p.precise_lon
    precise_accuracy_m := p.precise_accuracy_m
    precise_timestamp := some p.precise_timestamp
    consented := p.consented
    device_platform := p.device_platform
    device_vendor := p.device_vendor
    device_language := p.device_language
    device_languages := p.device_languages
    device_timezone := p.device_timezone
    device_hardware_concurrency := p.device_hardware_concurrency
    device_memory_gb := p.device_memory_gb
    device_screen_w := p.device_screen_w
    device_screen_h := p.device_screen_h
    device_color_depth := p.device_color_depth
    do_not_track := some p.do_not_track }

/-! ## Startup schema migration (index.js 83–99)

`addCol(name, type)` runs `ALTER TABLE clicks ADD COLUMN` when `name`
is not in the `PRAGMA table_info` snapshot taken once at the start.
All thirteen `addCol` calls sit inside a single `try { ... } catch {}`
block.  The schema is modelled as the list of column names; an
injected predicate `fail` marks columns whose `ALTER` statement throws
(e.g. an I/O error); `db.exec` also throws when asked to add a column
that already exists. -/

/-- The thirteen columns added by the migration block, in source order
(index.js 86–98). -/
def migrationCols : List String :=
  ["ip_chain", "accept_language", "device_platform", "device_vendor",
   "device_language", "device_languages", "device_timezone",
   "device_hardware_concurrency", "device_memory_gb", "device_screen_w",
   "device_screen_h", "device_color_depth", "do_not_track"]

/-- Outcome of the migration block: the final physical schema, the
columns whose `addCol` body actually ran, and whether an exception
was thrown (and swallowed by the single surrounding `catch`). -/
structure MigResult where
  schema : List String
  attempted : List String
  errored : Bool
  deriving DecidableEq, Repr

/-- Sequential execution of the `addCol` calls.  `existing` is the
one-shot `PRAGMA table_info` snapshot.  A throwing `db.exec` (duplicate
column, or an injected failure) propagates out of the `try` block:
the remaining calls never run, and the `catch` swallows the error. -/
def addColsGo (fail : String → Bool) (existing : List String) :
    List String → List String → List String → MigResult
  | [], schema, att => ⟨schema, att, false⟩
  | c :: cs, schema, att =>
    if existing.contains c then addColsGo fail existing cs schema (att ++ [c])
    else if schema.contains c || fail c then ⟨schema, att ++ [c], true⟩
    else addColsGo fail existing cs (schema ++ [c]) (att ++ [c])

/-- The whole migration block (index.js 83–99): snapshot the schema,
then run the thirteen `addCol` calls under one `try`/`catch`. -/
def migrate (fail : String → Bool) (schema0 : List String) : MigResult :=
  addColsGo fail schema0 migrationCols schema0 []

/-- A pre-migration physical schema: the `clicks` table of an older
deployment, before any of the thirteen added columns existed (this is
exactly the population the migration block is written for). -/
def oldSchema : List String :=
  ["id", "created_at", "ip", "user_agent", "referrer", "dest_url",
   "approx_country", "approx_region", "approx_city", "approx_lat",
   "approx_lon", "approx_accuracy_km", "precise_lat", "precise_lon",
   "precise_accuracy_m", "precise_timestamp", "consented"]

/-! ## Enrichment Flow: `POST /api/geo` (index.js 343–384) -/

/-- Keep `v` when `typeof v` is the number tag, else null. -/
def numField (v : JVal) : Option Rat :=
  match v with
  | .num x => some x
  | _ => none

/-- `v ? String(v) : null`. -/
def strField (v : JVal) : Option String :=
  if jsTruthy v then some (jsToString v) else none

/-- The enrichment request body as the handler reads it: each property
of `req.body` is an arbitrary JS value (`.undef` when the property is
missing). -/
structure GeoBody where
  lat : JVal
  lon : JVal
  accuracy : JVal
  timestamp : JVal
  consented : JVal
  platform : JVal
  vendor : JVal
  language : JVal
  languages : JVal
  timezone : JVal
  hardwareConcurrency : JVal
  deviceMemory : JVal
  screenW : JVal
  screenH : JVal
  colorDepth : JVal
  doNotTrack : JVal

/-- Field extraction and coercion performed by the `/api/geo` handler
(index.js 349–367): per-field type checks, defaulting to null on
mismatch; `serverNow` is `new Date().toISOString()` at receipt. -/
def geoFields (b : GeoBody) (serverNow : String) : GeoParams :=
  { precise_lat := numField b.lat
    precise_lon := numField b.lon
    precise_accuracy_m := numField b.accuracy
    precise_timestamp := if jsTruthy b.timestamp then jsToString b.timestamp else serverNow
    consented := if jsTruthy b.consented then 1 else 0
    device_platform := strField b.platform
    device_vendor := strField b.vendor
    device_language := strField b.language
    device_languages :=
      match b.languages with
      | .arr xs => some (jsJoin xs)
      | _ => none
    device_timezone := strField b.timezone
    device_hardware_concurrency := numField b.hardwareConcurrency
    device_memory_gb := numField b.deviceMemory
    device_screen_w := numField b.screenW
    device_screen_h := numField b.screenH
    device_color_depth := numField b.colorDepth
    do_not_track := if jsTruthy b.doNotTrack then 1 else 0 }

/-- Response of the `/api/geo` handler. -/
inductive GeoResp where
  | badRequest (error : String)
  | ok
  deriving DecidableEq, Repr

/-- `info.changes` of `updateGeoStmt.run`: the number of rows whose
`id` equals the bound correlation id. -/
def updateChanges (c : String) (store : List ClickRecord) : Nat :=
  (store.filter (fun r => r.id = c)).length

/-- The `/api/geo` handler (index.js 343–384): reject a falsy `cid`
cookie with a 400, otherwise run `updateGeoStmt` keyed by the cookie
value and answer `{ok: true}`.  Returns (response, new store, rows
affected). -/
def apiGeo (cid : Option String) (b : GeoBody) (serverNow : String)
    (store : List ClickRecord) : GeoResp × List ClickRecord × Nat :=
  match cid with
  | none => (.badRequest "Missing correlation id", store, 0)
  | some c =>
    if c = "" then (.badRequest "Missing correlation id", store, 0)
    else
      let p := geoFields b serverNow
      (.ok, store.map (fun r => if r.id = c then applyGeoUpdate r p else r),
        updateChanges c store)

/-! ## Read/Reporting Surface: coordinate selection (index.js 491–494, 535–539) -/

/-- A best-available coordinate as serialized by `/api/last` and
`/api/logs`: the `browser` shape carries `accuracy_m`, the `ip` shape
carries `accuracy_km`. -/
inductive Coords where
  | browser (lat lon accuracy_m : Option Rat)
  | ip (lat lon accuracy_km : Option Rat)
  deriving DecidableEq, Repr

/-- The `source` discriminator field of a serialized coordinate. -/
def Coords.source : Coords → String
  | .browser _ _ _ => "browser"
  | .ip _ _ _ => "ip"

/-- Best-available coordinate selection shared by `/api/last` and
`/api/logs`: precise values with source `browser` when both
`precise_lat` and `precise_lon` are non-null, else approximate values
with source `ip`. -/
def bestCoords (r : ClickRecord) : Coords :=
  if r.precise_lat ≠ none ∧ r.precise_lon ≠ none then
    .browser r.precise_lat r.precise_lon r.precise_accuracy_m
  else
    .ip r.approx_lat r.approx_lon r.approx_accuracy_km

/-- The `data` object of `/api/last` (index.js 496–505). -/
structure LastData where
  id : String
  created_at : String
  ip : String
  ip_chain : String
  coords : Coords
  deriving DecidableEq, Repr

/-- The `/api/last` handler on the row its `LIMIT 1` query returned
(none when the table is empty, in which case `data` is null). -/
def apiLast (row : Option ClickRecord) : Option LastData :=
  match row with
  | none => none
  | some r => some ⟨r.id, r.created_at, r.ip, r.ip_chain, bestCoords r⟩

/-- One element of the `data` array of `/api/logs` (index.js 535–550). -/
structure LogRow where
  id : String
  created_at : String
  ip : String
  ip_chain : String
  best_coords : Coords
  approx_lat : Option Rat
  approx_lon : Option Rat
  approx_accuracy_km : Option Rat
  precise_lat : Option Rat
  precise_lon : Option Rat
  precise_accuracy_m : Option Rat
  consented : Bool
  deriving DecidableEq, Repr

/-- The row-shaping map of `/api/logs` (`!!r.consented` coerces the
stored 0/1 integer to a boolean). -/
def logRowOf (r : ClickRecord) : LogRow :=
  ⟨r.id, r.created_at, r.ip, r.ip_chain, bestCoords r,
   r.approx_lat, r.approx_lon, r.approx_accuracy_km,
   r.precise_lat, r.precise_lon, r.precise_accuracy_m,
   r.consented ≠ 0⟩

/-! ## `/api/logs` limit and offset correction (index.js 516–522) -/

/-- The corrected limit: `Number(limitRaw ?? 100)`, then non-finite or
non-positive values become 100, then values above 1000 are clamped to
1000.  `num` models the platform `Number` string coercion; `none`
stands for `NaN` (and the other non-finite results). -/
def corrLimit (num : String → Option Rat) (raw : Option String) : Rat :=
  let l0 : Option Rat := match raw with | none => some 100 | some s => num s
  let l1 : Rat := match l0 with | none => 100 | some x => if x ≤ 0 then 100 else x
  if l1 > 1000 then 1000 else l1

/-- The corrected offset: `Number(offsetRaw ?? 0)`, then non-finite or
negative values become 0. -/
def corrOffset (num : String → Option Rat) (raw : Option String) : Rat :=
  let o0 : Option Rat := match raw with | none => some 0 | some s => num s
  match o0 with | none => 0 | some x => if x < 0 then 0 else x

/-- The successful JSON body of `/api/logs`. -/
structure LogsResp where
  data : List LogRow
  limit : Rat
  offset : Rat
  deriving DecidableEq, Repr

/-- The `/api/logs` handler after the key check (index.js 516–552):
correct limit/offset, run the windowed query (`queryRows` models the
prepared `SELECT ... LIMIT @limit OFFSET @offset` against the opaque
store), shape each row, and echo `limit` and `offset` in the body. -/
def apiLogs (num : String → Option Rat) (queryRows : Rat → Rat → List ClickRecord)
    (limitRaw offsetRaw : Option String) : LogsResp :=
  let limit := corrLimit num limitRaw
  let offset := corrOffset num offsetRaw
  ⟨(queryRows limit offset).map logRowOf, limit, offset⟩

/-! ## Click Capture Flow: `GET /track` (index.js 167–283) -/

/-- The result object of `geoip.lookup(ip)` as the handler consumes it:
`country`/`region`/`city`/`accuracy` are loosely-typed JS values
(`region` may be a string or an array), `ll` is the `[lat, lon]` pair
when present. -/
structure GeoipResult where
  country : JVal
  region : JVal
  city : JVal
  ll : Option (Rat × Rat)
  accuracy : JVal

/-- Region normalization (index.js 198): an array joins with commas,
any other truthy value goes through `String(v)`, else null. -/
def normRegion (v : JVal) : Option String :=
  match v with
  | .arr xs => some (jsJoin xs)
  | v => if jsTruthy v then some (jsToString v) else none

/-- Server-observable facts of one capture request: the freshly
generated identifier, receipt time, resolved client IP, raw headers,
and the (possibly missed) `geoip` lookup result. -/
structure TrackCtx where
  freshId : String
  now : String
  ip : String
  ipChain : String
  userAgent : String
  acceptLanguage : String
  referrer : String
  approx : Option GeoipResult

/-- The `record` object built by the `/track` handler (index.js
188–203) and bound into `insertClickStmt`; columns the INSERT omits
take their schema defaults (`consented` 0, the rest NULL).  `u` is the
`u` query parameter after first-element extraction. -/
def trackRecord (M : URLModel) (ctx : TrackCtx) (u : Option String) : ClickRecord :=
  let rawDest := u.getD ""
  let isImageMode := rawDest = "view-transaction"
  let destStr := safeRedirectUrl M (.str (if rawDest = "" then REDIRECT_DEFAULT else rawDest))
  { id := ctx.freshId
    created_at := ctx.now
    ip := ctx.ip
    ip_chain := ctx.ipChain
    user_agent := ctx.userAgent
    accept_language := ctx.acceptLanguage
    referrer := ctx.referrer
    dest_url := if isImageMode then rawDest else destStr
    approx_country := match ctx.approx with | none => none | some a => strField a.country
    approx_region := match ctx.approx with | none => none | some a => normRegion a.region
    approx_city := match ctx.approx with | none => none | some a => strField a.city
    approx_lat := match ctx.approx with | none => none | some a => a.ll.map Prod.fst
    approx_lon := match ctx.approx with | none => none | some a => a.ll.map Prod.snd
    approx_accuracy_km := match ctx.approx with | none => none | some a => numField a.accuracy
    precise_lat := none
    precise_lon := none
    precise_accuracy_m := none
    precise_timestamp := none
    consented := 0
    device_platform := none
    device_vendor := none
    device_language := none
    device_languages := none
    device_timezone := none
    device_hardware_concurrency := none
    device_memory_gb := none
    device_screen_w := none
    device_screen_h := none
    device_color_depth := none
    do_not_track := none }

/-- The user-facing outcome of `/track`: an immediate 302 redirect, or
the interactive bait page with its `cid` correlation cookie. -/
inductive TrackResp where
  | redirect (status : Nat) (url : String)
  | page (cookie : Option (String × String))
  deriving DecidableEq, Repr

/-- The `/track` handler (index.js 167–283): build the record, attempt
the insert with any failure swallowed (`insertFails` injects a throwing
`insertClickStmt.run`), then present — bait page plus `cid` cookie in
image mode, else a 302 to the validated destination.  Returns
(response, record built, new store). -/
def trackHandler (M : URLModel) (ctx : TrackCtx) (u : Option String) (insertFails : Bool)
    (store : List ClickRecord) : TrackResp × ClickRecord × List ClickRecord :=
  let rawDest := u.getD ""
  let isImageMode := rawDest = "view-transaction"
  let destStr := safeRedirectUrl M (.str (if rawDest = "" then REDIRECT_DEFAULT else rawDest))
  let record := trackRecord M ctx u
  let store1 := if insertFails then store else store ++ [record]
  if isImageMode then (.page (some ("cid", ctx.freshId)), record, store1)
  else (.redirect 302 destStr, record, store1)

/-- A stored record with both precise coordinates present. -/
def recA : ClickRecord :=
  { id := "a1", created_at := "2024-01-01T00:00:00Z", ip := "1.2.3.4",
    ip_chain := "1.2.3.4", user_agent := "ua", accept_language := "en",
    referrer := "", dest_url := "https://example.com/",
    approx_country := some "US", approx_region := none, approx_city := none,
    approx_lat := none, approx_lon := none, approx_accuracy_km := none,
    precise_lat := some 10.5, precise_lon := some 20.25,
    precise_accuracy_m := some 5, precise_timestamp := some "t",
    consented := 1, device_platform := none, device_vendor := none,
    device_language := none, device_languages := none, device_timezone := none,
    device_hardware_concurrency := none, device_memory_gb := none,
    device_screen_w := none, device_screen_h := none, device_color_depth := none,
    do_not_track := none }

/-- A stored record with no enrichment at all (every precise and
approximate coordinate absent). -/
def recB : ClickRecord :=
  { recA with
    id := "b2", precise_lat := none, precise_lon := none,
    precise_accuracy_m := none, precise_timestamp := none, consented := 0,
    approx_country := none }

/-- A concrete enrichment payload: numeric lat/lon/accuracy, consent
granted, a missing timestamp, a two-element languages array, and a
non-numeric (absent) device-memory field. -/
def geoBodyEx : GeoBody :=
  { lat := .num 10.5, lon := .num 20.25, accuracy := .num 5,
    timestamp := .undef, consented := .bool true, platform := .str "Linux",
    vendor := .undef, language := .undef,
    languages := .arr [.str "en", .str "fr"], timezone := .undef,
    hardwareConcurrency := .num 8, deviceMemory := .undef,
    screenW := .num 1920, screenH := .num 1080, colorDepth := .num 24,
    doNotTrack := .undef }

/-- Concrete capture-time facts for exercising the `/track` handler. -/
def ctxEx : TrackCtx :=
  { freshId := "a1", now := "2024-01-01T00:00:00Z", ip := "1.2.3.4",
    ipChain := "1.2.3.4", userAgent := "ua", acceptLanguage := "en",
    referrer := "", approx := none }

/-- A concrete instance of the platform `Number` coercion covering the
paged-list examples. -/
def numEx : String → Option Rat := fun s =>
  if s = "5000" then some 5000
  else if s = "-3" then some (-3)
  else if s = "7" then some 7
  else none

/-- A concrete windowed query against the opaque store. -/
def queryRowsEx : Rat → Rat → List ClickRecord := fun _ _ => [recA]

/-- C1: for every string input of length ≤ 2048 that parses as an
absolute URL with scheme `http` or `https`, the validator returns the
canonicalized form; for every other input (absent, non-string, too
long, unparseable, other scheme) it returns the fixed fallback.
Totality and determinism hold because `safeRedirectUrl` is a total Lean
function.  The hypothesis `hM` records that the platform parser rejects
the empty string (`new URL` throws on it: an empty string is not an
absolute URL). -/
theorem safeRedirectUrl_spec (M : URLModel) (hM : M.parse "" = none) (input : JInput) :
    (∀ s p, input = .str s → s.length ≤ 2048 → M.parse s = some p →
      (p.protocol = "http:" ∨ p.protocol = "https:") →
      safeRedirectUrl M input = p.canonical)
    ∧ (∀ s, input = .str s → s.length > 2048 → safeRedirectUrl M input = REDIRECT_DEFAULT)
    ∧ (∀ s, input = .str s → M.parse s = none → safeRedirectUrl M input = REDIRECT_DEFAULT)
    ∧ (∀ s p, input = .str s → M.parse s = some p → p.protocol ≠ "http:" →
        p.protocol ≠ "https:" → safeRedirectUrl M input = REDIRECT_DEFAULT)
    ∧ ((input = .absent ∨ input = .nonString) → safeRedirectUrl M input = REDIRECT_DEFAULT) := by
  refine ⟨?_, ?_, ?_, ?_, ?_⟩
  · rintro s p rfl hlen hparse hproto
    have hs : s ≠ "" := by
      rintro rfl
      rw [hM] at hparse
      exact Option.noConfusion hparse
    simp only [safeRedirectUrl, if_neg hs, if_neg (by omega : ¬ s.length > 2048), hparse]
    rcases hproto with h | h <;> simp [h]
  · rintro s rfl hlen
    have hs : s ≠ "" := by
      rintro rfl
      simp [String.length] at hlen
    simp [safeRedirectUrl, hs, hlen]
  · rintro s rfl hparse
    by_cases hs : s = ""
    · simp [safeRedirectUrl, hs]
    · by_cases hlen : s.length > 2048
      · simp [safeRedirectUrl, hs, hlen]
      · simp [safeRedirectUrl, hs, hlen, hparse]
  · rintro s p rfl hparse h1 h2
    by_cases hs : s = ""
    · simp [safeRedirectUrl, hs]
    · by_cases hlen : s.length > 2048
      · simp [safeRedirectUrl, hs, hlen]
      · simp [safeRedirectUrl, hs, hlen, hparse, h1, h2]
  · rintro (rfl | rfl) <;> rfl

/-- Witness for C1 at concrete inputs: a parseable `http` URL is
canonicalized, an oversized string falls back, an unparseable string
falls back, a non-`http(s)` scheme falls back, and an absent input
falls back. -/
theorem safeRedirectUrl_spec_witness :
    safeRedirectUrl urlModelEx (.str "http://a") = "http://a/"
    ∧ safeRedirectUrl urlModelEx (.str (String.mk (List.replicate 2049 'a'))) = REDIRECT_DEFAULT
    ∧ safeRedirectUrl urlModelEx (.str "nope") = REDIRECT_DEFAULT
    ∧ safeRedirectUrl urlModelEx (.str "ftp://a") = REDIRECT_DEFAULT
    ∧ safeRedirectUrl urlModelEx .absent = REDIRECT_DEFAULT := by
  have hM : urlModelEx.parse "" = none := by decide
  refine ⟨?_, ?_, ?_, ?_, ?_⟩
  · exact (safeRedirectUrl_spec urlModelEx hM (.str "http://a")).1 "http://a"
      ⟨"http:", "http://a/"⟩ rfl (by decide) (by decide) (Or.inl rfl)
  · exact (safeRedirectUrl_spec urlModelEx hM _).2.1 _ rfl
      (by show (List.replicate 2049 'a').length > 2048; rw [List.length_replicate]; omega)
  · exact (safeRedirectUrl_spec urlModelEx hM (.str "nope")).2.2.1 "nope" rfl (by decide)
  · exact (safeRedirectUrl_spec urlModelEx hM (.str "ftp://a")).2.2.2.1 "ftp://a"
      ⟨"ftp:", "ftp://a/"⟩ rfl (by decide) (by decide) (by decide)
  · exact (safeRedirectUrl_spec urlModelEx hM .absent).2.2.2.2 (Or.inl rfl)

/-- C9: the enrichment update leaves every capture-time column of the
targeted row unchanged (identifier, creation timestamp, client IP,
forwarded chain, user agent, accept-language, referrer, destination
URL, and all approximate-location fields); it writes only the
precise-enrichment and device-fingerprint columns. -/
theorem applyGeoUpdate_preserves_capture_fields (r : ClickRecord) (p : GeoParams) :
    (applyGeoUpdate r p).id = r.id
    ∧ (applyGeoUpdate r p).created_at = r.created_at
    ∧ (applyGeoUpdate r p).ip = r.ip
    ∧ (applyGeoUpdate r p).ip_chain = r.ip_chain
    ∧ (applyGeoUpdate r p).user_agent = r.user_agent
    ∧ (applyGeoUpdate r p).accept_language = r.accept_language
    ∧ (applyGeoUpdate r p).referrer = r.referrer
    ∧ (applyGeoUpdate r p).dest_url = r.dest_url
    ∧ (applyGeoUpdate r p).approx_country = r.approx_country
    ∧ (applyGeoUpdate r p).approx_region = r.approx_region
    ∧ (applyGeoUpdate r p).approx_city = r.approx_city
    ∧ (applyGeoUpdate r p).approx_lat = r.approx_lat
    ∧ (applyGeoUpdate r p).approx_lon = r.approx_lon
    ∧ (applyGeoUpdate r p).approx_accuracy_km = r.approx_accuracy_km := by
  exact ⟨rfl, rfl, rfl, rfl, rfl, rfl, rfl, rfl, rfl, rfl, rfl, rfl, rfl, rfl⟩

/-- With no injected failures, the run appends exactly the columns
missing from the snapshot, attempts every column, and raises no error
(provided the pending columns are distinct and nothing not in the
snapshot is already physically present). -/
theorem addColsGo_no_fail (existing : List String) (cols : List String)
    (schema att : List String) (hn : cols.Nodup)
    (hsub : ∀ c ∈ cols, schema.contains c = true → existing.contains c = true) :
    addColsGo (fun _ => false) existing cols schema att =
      ⟨schema ++ cols.filter (fun c => !existing.contains c), att ++ cols, false⟩ := by
  induction cols generalizing schema att with
  | nil => simp [addColsGo]
  | cons c cs ih =>
    rcases List.nodup_cons.mp hn with ⟨hc, hcs⟩
    by_cases hex : existing.contains c = true
    · have hmem : c ∈ existing := by simpa using hex
      rw [addColsGo, if_pos hex,
        ih schema (att ++ [c]) hcs (fun d hd hs => hsub d (List.mem_cons_of_mem c hd) hs)]
      simp only [MigResult.mk.injEq, List.filter_cons]
      refine ⟨by simp [hmem], by simp, trivial⟩
    · have hsc : ¬ schema.contains c = true := fun h => hex (hsub c (List.mem_cons_self c cs) h)
      have hmem : c ∉ existing := fun h => hex (by simpa using h)
      have hscm : c ∉ schema := fun h => hsc (by simpa using h)
      rw [addColsGo, if_neg hex, if_neg (by simp [hscm]),
        ih (schema ++ [c]) (att ++ [c]) hcs ?_]
      · simp only [MigResult.mk.injEq, List.filter_cons]
        refine ⟨by simp [hmem], by simp, trivial⟩
      · intro d hd hs
        have hdm : d ∈ schema ++ [c] := by simpa using hs
        rcases List.mem_append.mp hdm with h | h
        · exact hsub d (List.mem_cons_of_mem c hd) (by simpa using h)
        · exact absurd (List.mem_singleton.mp h ▸ hd) hc

/-- The migration with no injected failures appends exactly the columns
missing from the snapshot, in order, attempting all thirteen. -/
theorem migrate_no_fail_eq (s : List String) :
    migrate (fun _ => false) s =
      ⟨s ++ migrationCols.filter (fun c => !s.contains c), migrationCols, false⟩ := by
  have h := addColsGo_no_fail s migrationCols s [] (by decide) (fun c _ hc => hc)
  simpa [migrate] using h

/-- Running the migration against a schema already holding every
migration column adds nothing and raises no error. -/
theorem migrate_noop_of_current (s : List String) (h : ∀ c ∈ migrationCols, c ∈ s) :
    migrate (fun _ => false) s = ⟨s, migrationCols, false⟩ := by
  have hf : migrationCols.filter (fun c => !s.contains c) = [] := by
    rw [List.filter_eq_nil_iff]
    intro c hc
    simp [h c hc]
  rw [migrate_no_fail_eq, hf, List.append_nil]

/-- Every `addCol` call that runs does so in source order: the attempted
columns always form a prefix of the thirteen migration columns. -/
theorem addColsGo_attempted_initial (fail : String → Bool) (existing : List String)
    (cols : List String) (schema att : List String) :
    ∃ t rest, (addColsGo fail existing cols schema att).attempted = att ++ t
      ∧ t ++ rest = cols := by
  induction cols generalizing schema att with
  | nil => exact ⟨[], [], by simp [addColsGo], rfl⟩
  | cons c cs ih =>
    rw [addColsGo]
    by_cases hex : existing.contains c = true
    · rw [if_pos hex]
      obtain ⟨t, rest, h1, h2⟩ := ih schema (att ++ [c])
      exact ⟨c :: t, rest, by simpa using h1, by simp [h2]⟩
    · rw [if_neg hex]
      by_cases hf : (schema.contains c || fail c) = true
      · rw [if_pos hf]
        exact ⟨[c], cs, rfl, rfl⟩
      · rw [if_neg hf]
        obtain ⟨t, rest, h1, h2⟩ := ih (schema ++ [c]) (att ++ [c])
        exact ⟨c :: t, rest, by simpa using h1, by simp [h2]⟩

/-- C3 counterexample: the thirteen `addCol` calls share one
`try`/`catch` (index.js 83–99), so the additions are NOT attempted
independently.  Concretely: against a pre-migration schema (no
`ip_chain`, no `accept_language`, …), if the `ALTER` for `ip_chain`
throws, then `accept_language` — equally missing, and whose own `ALTER`
would succeed — is never attempted and never added, while the no-failure
run does add it.  The error is swallowed (startup continues), but the
remaining additions are skipped, contradicting the claim. -/
theorem migrate_not_independent_counterexample :
    (migrate (fun c => c == "ip_chain") oldSchema).errored = true
    ∧ "accept_language" ∉ (migrate (fun c => c == "ip_chain") oldSchema).attempted
    ∧ "accept_language" ∉ (migrate (fun c => c == "ip_chain") oldSchema).schema
    ∧ "accept_language" ∉ oldSchema
    ∧ "accept_language" ∈ (migrate (fun _ => false) oldSchema).schema := by
  decide

/-- C3 (amended): the startup schema migration is idempotent — against
an already-current schema it adds no columns and raises no error, and a
second no-failure run after a first is a no-op — and a failure while
adding one column does not abort startup (the single surrounding
`catch` swallows it); however, because all thirteen `addCol` calls
share that one `try` block, a failure skips the remaining additions in
that run (they are attempted strictly in source order, the attempted
set always being a prefix of the column list). -/
theorem migrate_idempotent_and_failure_swallowed (s : List String) (fail : String → Bool) :
    ((∀ c ∈ migrationCols, c ∈ s) →
      migrate (fun _ => false) s = ⟨s, migrationCols, false⟩)
    ∧ migrate (fun _ => false) ((migrate (fun _ => false) s).schema) =
        ⟨(migrate (fun _ => false) s).schema, migrationCols, false⟩
    ∧ (∃ t rest, (migrate fail s).attempted = t ∧ t ++ rest = migrationCols) := by
  refine ⟨migrate_noop_of_current s, ?_, ?_⟩
  · apply migrate_noop_of_current
    intro c hc
    rw [migrate_no_fail_eq]
    by_cases hs : c ∈ s
    · exact List.mem_append.mpr (Or.inl hs)
    · refine List.mem_append.mpr (Or.inr (List.mem_filter.mpr ⟨hc, ?_⟩))
      simp [hs]
  · obtain ⟨t, rest, h1, h2⟩ := addColsGo_attempted_initial fail s migrationCols s []
    exact ⟨t, rest, by simpa [migrate] using h1, h2⟩

/-- The rows-affected count of the enrichment update equals the number
of occurrences of the correlation id among stored identifiers. -/
theorem updateChanges_eq_count (c : String) (store : List ClickRecord) :
    updateChanges c store = (store.map ClickRecord.id).count c := by
  unfold updateChanges
  rw [← List.countP_eq_length_filter, List.count, List.countP_map]
  apply List.countP_congr
  intro r _
  simp [Function.comp]

/-- C2: a missing or empty correlation token yields a client error with
no store change; a token naming an existing identifier (the store keeps
identifiers unique — it is the primary key) yields success with exactly
one row updated and all other rows untouched; a token naming no record
yields success with zero rows affected and the store unchanged. -/
theorem apiGeo_spec (cid : Option String) (b : GeoBody) (now : String)
    (store : List ClickRecord) (hids : (store.map ClickRecord.id).Nodup) :
    ((cid = none ∨ cid = some "") →
      apiGeo cid b now store = (.badRequest "Missing correlation id", store, 0))
    ∧ (∀ c, cid = some c → c ≠ "" → c ∈ store.map ClickRecord.id →
        (apiGeo cid b now store).1 = .ok
        ∧ (apiGeo cid b now store).2.2 = 1
        ∧ ∀ r ∈ store, r.id ≠ c → r ∈ (apiGeo cid b now store).2.1)
    ∧ (∀ c, cid = some c → c ≠ "" → c ∉ store.map ClickRecord.id →
        (apiGeo cid b now store).1 = .ok
        ∧ (apiGeo cid b now store).2.2 = 0
        ∧ (apiGeo cid b now store).2.1 = store) := by
  refine ⟨?_, ?_, ?_⟩
  · rintro (rfl | rfl)
    · rfl
    · rfl
  · rintro c rfl hc hm
    have happ : apiGeo (some c) b now store =
        (.ok,
          store.map (fun r => if r.id = c then applyGeoUpdate r (geoFields b now) else r),
          updateChanges c store) := by
      simp [apiGeo, hc]
    rw [happ]
    refine ⟨rfl, ?_, ?_⟩
    · show updateChanges c store = 1
      rw [updateChanges_eq_count]
      exact List.count_eq_one_of_mem hids hm
    · intro r hr hne
      show r ∈ store.map fun r => if r.id = c then applyGeoUpdate r (geoFields b now) else r
      have he : (if r.id = c then applyGeoUpdate r (geoFields b now) else r) = r := if_neg hne
      exact he ▸ List.mem_map_of_mem _ hr
  · rintro c rfl hc hm
    have happ : apiGeo (some c) b now store =
        (.ok,
          store.map (fun r => if r.id = c then applyGeoUpdate r (geoFields b now) else r),
          updateChanges c store) := by
      simp [apiGeo, hc]
    rw [happ]
    refine ⟨rfl, ?_, ?_⟩
    · show updateChanges c store = 0
      rw [updateChanges_eq_count]
      exact List.count_eq_zero_of_not_mem hm
    · show (store.map fun r => if r.id = c then applyGeoUpdate r (geoFields b now) else r)
        = store
      have h : ∀ r ∈ store,
          (if r.id = c then applyGeoUpdate r (geoFields b now) else r) = id r := by
        intro r hr
        refine if_neg (fun he => hm ?_)
        rw [← he]
        exact List.mem_map_of_mem ClickRecord.id hr
      exact (List.map_congr_left h).trans (List.map_id store)

/-- C4: on every non-interactive capture, the record built for
insertion carries `dest_url` equal to the validator output on the
effective destination (the supplied parameter, or the configured
default when none is supplied), and the response is a 302 redirect to
that same validated URL — for every value of `insertFails`, so the
redirect does not depend on the persistence outcome; when the insert
succeeds the very record is appended to the store. -/
theorem track_noninteractive_spec (M : URLModel) (ctx : TrackCtx) (u : Option String)
    (insertFails : Bool) (store : List ClickRecord)
    (h : u.getD "" ≠ "view-transaction") :
    (trackHandler M ctx u insertFails store).2.1.dest_url =
      safeRedirectUrl M (.str (if u.getD "" = "" then REDIRECT_DEFAULT else u.getD ""))
    ∧ (trackHandler M ctx u insertFails store).1 =
      .redirect 302 ((trackHandler M ctx u insertFails store).2.1.dest_url)
    ∧ (trackHandler M ctx u false store).2.2 = store ++ [trackRecord M ctx u] := by
  refine ⟨?_, ?_, ?_⟩
  · simp [trackHandler, trackRecord, h]
  · simp [trackHandler, trackRecord, h]
  · simp [trackHandler, h]

/-- C5: on every interactive (bait-sentinel) capture, the response sets
the `cid` correlation cookie to exactly the identifier of the record
built for insertion, and the dest_url of that record is the sentinel
literal `view-transaction`, not a destination URL. -/
theorem track_interactive_spec (M : URLModel) (ctx : TrackCtx) (u : Option String)
    (insertFails : Bool) (store : List ClickRecord)
    (h : u.getD "" = "view-transaction") :
    (trackHandler M ctx u insertFails store).1 =
      .page (some ("cid", (trackHandler M ctx u insertFails store).2.1.id))
    ∧ (trackHandler M ctx u insertFails store).2.1.dest_url = "view-transaction" := by
  constructor
  · simp [trackHandler, trackRecord, h]
  · simp [trackHandler, trackRecord, h]

/-- C6: in both the latest-record and paged-list shaping, a record with
non-null precise latitude and longitude reports the precise values with
source `browser`; any other record reports the approximate values with
source `ip`, even when those are themselves null. -/
theorem bestCoords_spec (r : ClickRecord) :
    ((r.precise_lat ≠ none ∧ r.precise_lon ≠ none) →
      bestCoords r = .browser r.precise_lat r.precise_lon r.precise_accuracy_m
      ∧ (bestCoords r).source = "browser")
    ∧ (¬(r.precise_lat ≠ none ∧ r.precise_lon ≠ none) →
      bestCoords r = .ip r.approx_lat r.approx_lon r.approx_accuracy_km
      ∧ (bestCoords r).source = "ip")
    ∧ (∀ x, apiLast (some r) = some x → x.coords = bestCoords r)
    ∧ (logRowOf r).best_coords = bestCoords r := by
  refine ⟨?_, ?_, ?_, rfl⟩
  · intro hp
    rw [bestCoords, if_pos hp]
    exact ⟨rfl, rfl⟩
  · intro hp
    rw [bestCoords, if_neg hp]
    exact ⟨rfl, rfl⟩
  · rintro x hx
    cases hx
    rfl

/-- C7: the effective limit of the paged list is 100 when the parameter
is absent, non-numeric, or non-positive, is clamped to 1000 when above
1000, and is otherwise the supplied value; the effective offset is 0
when the parameter is absent, non-numeric, or negative, and is
otherwise the supplied value. -/
theorem corrLimitOffset_spec (num : String → Option Rat) (raw : Option String) :
    (raw = none → corrLimit num raw = 100 ∧ corrOffset num raw = 0)
    ∧ (∀ s, raw = some s → num s = none → corrLimit num raw = 100 ∧ corrOffset num raw = 0)
    ∧ (∀ s x, raw = some s → num s = some x → x ≤ 0 → corrLimit num raw = 100)
    ∧ (∀ s x, raw = some s → num s = some x → 0 < x → x ≤ 1000 → corrLimit num raw = x)
    ∧ (∀ s x, raw = some s → num s = some x → 1000 < x → corrLimit num raw = 1000)
    ∧ (∀ s x, raw = some s → num s = some x → x < 0 → corrOffset num raw = 0)
    ∧ (∀ s x, raw = some s → num s = some x → 0 ≤ x → corrOffset num raw = x) := by
  refine ⟨?_, ?_, ?_, ?_, ?_, ?_, ?_⟩
  · rintro rfl
    exact ⟨by norm_num [corrLimit], rfl⟩
  · rintro s rfl hn
    exact ⟨by norm_num [corrLimit, hn], by simp [corrOffset, hn]⟩
  · rintro s x rfl hn hx
    have h1000 : ¬ (100 : Rat) > 1000 := by norm_num
    simp [corrLimit, hn, hx, h1000]
  · rintro s x rfl hn hx hle
    simp [corrLimit, hn, not_le.mpr hx, not_lt.mpr hle]
  · rintro s x rfl hn hx
    have hpos : (0 : Rat) < x := lt_trans (by norm_num) hx
    simp [corrLimit, hn, not_le.mpr hpos, hx]
  · rintro s x rfl hn hx
    simp [corrOffset, hn, hx]
  · rintro s x rfl hn hx
    simp [corrOffset, hn, not_lt.mpr hx]

/-- A JS value that is not a number is coerced to null by the
`typeof` number-tag guard. -/
theorem numField_of_not_isNum (v : JVal) (h : v.isNum = false) : numField v = none := by
  cases v <;> first | rfl | simp [JVal.isNum] at h

/-- C8: per-field coercion of the enrichment payload — the numeric
fields (`lat`, `lon`, `accuracy`, and the numeric device fields) are
kept exactly when the payload value is a number and become absent
otherwise; a missing client timestamp is replaced by the server
receipt time; the consent and do-not-track flags are coerced by
truthiness; an array-valued `languages` is stored comma-joined and any
non-array value for it is stored as absent.  No case raises. -/
theorem geoFields_spec (b : GeoBody) (now : String) :
    (∀ x, b.lat = .num x → (geoFields b now).precise_lat = some x)
    ∧ (b.lat.isNum = false → (geoFields b now).precise_lat = none)
    ∧ (∀ x, b.lon = .num x → (geoFields b now).precise_lon = some x)
    ∧ (b.lon.isNum = false → (geoFields b now).precise_lon = none)
    ∧ (∀ x, b.accuracy = .num x → (geoFields b now).precise_accuracy_m = some x)
    ∧ (b.accuracy.isNum = false → (geoFields b now).precise_accuracy_m = none)
    ∧ (∀ x, b.hardwareConcurrency = .num x →
        (geoFields b now).device_hardware_concurrency = some x)
    ∧ (b.hardwareConcurrency.isNum = false →
        (geoFields b now).device_hardware_concurrency = none)
    ∧ (∀ x, b.deviceMemory = .num x → (geoFields b now).device_memory_gb = some x)
    ∧ (b.deviceMemory.isNum = false → (geoFields b now).device_memory_gb = none)
    ∧ (∀ x, b.screenW = .num x → (geoFields b now).device_screen_w = some x)
    ∧ (b.screenW.isNum = false → (geoFields b now).device_screen_w = none)
    ∧ (∀ x, b.screenH = .num x → (geoFields b now).device_screen_h = some x)
    ∧ (b.screenH.isNum = false → (geoFields b now).device_screen_h = none)
    ∧ (∀ x, b.colorDepth = .num x → (geoFields b now).device_color_depth = some x)
    ∧ (b.colorDepth.isNum = false → (geoFields b now).device_color_depth = none)
    ∧ (b.timestamp = .undef → (geoFields b now).precise_timestamp = now)
    ∧ ((geoFields b now).consented = 1 ↔ jsTruthy b.consented = true)
    ∧ ((geoFields b now).do_not_track = 1 ↔ jsTruthy b.doNotTrack = true)
    ∧ (∀ xs, b.languages = .arr xs → (geoFields b now).device_languages = some (jsJoin xs))
    ∧ ((∀ xs, b.languages ≠ .arr xs) → (geoFields b now).device_languages = none) := by
  refine ⟨?_, ?_, ?_, ?_, ?_, ?_, ?_, ?_, ?_, ?_, ?_, ?_, ?_, ?_, ?_, ?_, ?_, ?_, ?_, ?_, ?_⟩
  · rintro x h; simp [geoFields, h, numField]
  · intro h; simp [geoFields, numField_of_not_isNum _ h]
  · rintro x h; simp [geoFields, h, numField]
  · intro h; simp [geoFields, numField_of_not_isNum _ h]
  · rintro x h; simp [geoFields, h, numField]
  · intro h; simp [geoFields, numField_of_not_isNum _ h]
  · rintro x h; simp [geoFields, h, numField]
  · intro h; simp [geoFields, numField_of_not_isNum _ h]
  · rintro x h; simp [geoFields, h, numField]
  · intro h; simp [geoFields, numField_of_not_isNum _ h]
  · rintro x h; simp [geoFields, h, numField]
  · intro h; simp [geoFields, numField_of_not_isNum _ h]
  · rintro x h; simp [geoFields, h, numField]
  · intro h; simp [geoFields, numField_of_not_isNum _ h]
  · rintro x h; simp [geoFields, h, numField]
  · intro h; simp [geoFields, numField_of_not_isNum _ h]
  · intro h; simp [geoFields, h, jsTruthy]
  · by_cases ht : jsTruthy b.consented <;> simp [geoFields, ht]
  · by_cases ht : jsTruthy b.doNotTrack <;> simp [geoFields, ht]
  · rintro xs h; simp [geoFields, h]
  · intro h
    cases hb : b.languages <;>
      first
        | exact absurd hb (h _)
        | simp [geoFields, hb]

/-- C10: the limit and offset echoed by the paged-list response are the
corrected values that were bound into the windowed query — not the
raw caller input: when the raw limit exceeds 1000 or the raw offset
is negative, the echoed value provably differs from it. -/
theorem apiLogs_echo_spec (num : String → Option Rat)
    (queryRows : Rat → Rat → List ClickRecord) (limitRaw offsetRaw : Option String) :
    (apiLogs num queryRows limitRaw offsetRaw).limit = corrLimit num limitRaw
    ∧ (apiLogs num queryRows limitRaw offsetRaw).offset = corrOffset num offsetRaw
    ∧ (apiLogs num queryRows limitRaw offsetRaw).data =
        (queryRows (corrLimit num limitRaw) (corrOffset num offsetRaw)).map logRowOf
    ∧ (∀ s x, limitRaw = some s → num s = some x → 1000 < x →
        (apiLogs num queryRows limitRaw offsetRaw).limit ≠ x)
    ∧ (∀ s x, offsetRaw = some s → num s = some x → x < 0 →
        (apiLogs num queryRows limitRaw offsetRaw).offset ≠ x) := by
  refine ⟨rfl, rfl, rfl, ?_, ?_⟩
  · rintro s x rfl hn hx
    have hpos : (0 : Rat) < x := lt_trans (by norm_num) hx
    have he : (apiLogs num queryRows (some s) offsetRaw).limit = 1000 := by
      simp [apiLogs, corrLimit, hn, not_le.mpr hpos, hx]
    rw [he]
    exact ne_of_lt hx
  · rintro s x rfl hn hx
    have he : (apiLogs num queryRows limitRaw (some s)).offset = 0 := by
      simp [apiLogs, corrOffset, hn, hx]
    rw [he]
    exact ne_of_gt hx

/-- Witness for C2 at a concrete two-row store with distinct ids:
missing cookie rejected with no change, existing id updates one row,
unknown id succeeds with zero rows and an unchanged store. -/
theorem apiGeo_spec_witness :
    apiGeo none geoBodyEx "now" [recA, recB] =
      (.badRequest "Missing correlation id", [recA, recB], 0)
    ∧ (apiGeo (some "a1") geoBodyEx "now" [recA, recB]).1 = .ok
    ∧ (apiGeo (some "a1") geoBodyEx "now" [recA, recB]).2.2 = 1
    ∧ (apiGeo (some "zz") geoBodyEx "now" [recA, recB]).1 = .ok
    ∧ (apiGeo (some "zz") geoBodyEx "now" [recA, recB]).2.2 = 0
    ∧ (apiGeo (some "zz") geoBodyEx "now" [recA, recB]).2.1 = [recA, recB] := by
  have hids : (([recA, recB]).map ClickRecord.id).Nodup := by decide
  have h1 := (apiGeo_spec none geoBodyEx "now" [recA, recB] hids).1 (Or.inl rfl)
  have h2 := (apiGeo_spec (some "a1") geoBodyEx "now" [recA, recB] hids).2.1 "a1" rfl
    (by decide) (by decide)
  have h3 := (apiGeo_spec (some "zz") geoBodyEx "now" [recA, recB] hids).2.2 "zz" rfl
    (by decide) (by decide)
  exact ⟨h1, h2.1, h2.2.1, h3.1, h3.2.1, h3.2.2⟩

/-- Witness for the amended C3 theorem: against the fully migrated
schema the migration is a no-op with no error. -/
theorem migrate_idempotent_witness :
    migrate (fun _ => false) (oldSchema ++ migrationCols) =
      ⟨oldSchema ++ migrationCols, migrationCols, false⟩ :=
  (migrate_idempotent_and_failure_swallowed (oldSchema ++ migrationCols)
    (fun c => c == "ip_chain")).1 (by decide)

/-- Witness for C4 at a concrete non-interactive capture of
`http://a`, with a failing insert for the response conjuncts. -/
theorem track_noninteractive_spec_witness :
    (trackHandler urlModelEx ctxEx (some "http://a") true []).2.1.dest_url =
      safeRedirectUrl urlModelEx
        (.str (if (some "http://a").getD "" = "" then REDIRECT_DEFAULT
          else (some "http://a").getD ""))
    ∧ (trackHandler urlModelEx ctxEx (some "http://a") true []).1 =
      .redirect 302 ((trackHandler urlModelEx ctxEx (some "http://a") true []).2.1.dest_url)
    ∧ (trackHandler urlModelEx ctxEx (some "http://a") false []).2.2 =
      [] ++ [trackRecord urlModelEx ctxEx (some "http://a")] :=
  track_noninteractive_spec urlModelEx ctxEx (some "http://a") true [] (by decide)

/-- Witness for C5 at a concrete bait-sentinel capture. -/
theorem track_interactive_spec_witness :
    (trackHandler urlModelEx ctxEx (some "view-transaction") false []).1 =
      .page (some ("cid",
        (trackHandler urlModelEx ctxEx (some "view-transaction") false []).2.1.id))
    ∧ (trackHandler urlModelEx ctxEx (some "view-transaction") false []).2.1.dest_url =
      "view-transaction" :=
  track_interactive_spec urlModelEx ctxEx (some "view-transaction") false [] rfl

/-- Witness for C6: a fully precise record selects the browser pair, a
record with no precise pair selects the (here absent) approximate pair
with source `ip`. -/
theorem bestCoords_spec_witness :
    (bestCoords recA = .browser recA.precise_lat recA.precise_lon recA.precise_accuracy_m
      ∧ (bestCoords recA).source = "browser")
    ∧ (bestCoords recB = .ip recB.approx_lat recB.approx_lon recB.approx_accuracy_km
      ∧ (bestCoords recB).source = "ip") :=
  ⟨(bestCoords_spec recA).1 (by decide), (bestCoords_spec recB).2.1 (by decide)⟩

/-- Witness for C7 at the examples of the spec: `limit=5000` clamps to
1000, `limit=-3` corrects to 100, `limit=7` passes through; offsets
`-3` and `7` correct to 0 and pass through. -/
theorem corrLimitOffset_spec_witness :
    corrLimit numEx none = 100
    ∧ corrLimit numEx (some "abc") = 100
    ∧ corrLimit numEx (some "-3") = 100
    ∧ corrLimit numEx (some "7") = 7
    ∧ corrLimit numEx (some "5000") = 1000
    ∧ corrOffset numEx (some "-3") = 0
    ∧ corrOffset numEx (some "7") = 7 := by
  refine ⟨((corrLimitOffset_spec numEx none).1 rfl).1,
    ((corrLimitOffset_spec numEx (some "abc")).2.1 "abc" rfl (by decide)).1,
    (corrLimitOffset_spec numEx (some "-3")).2.2.1 "-3" (-3) rfl (by decide) (by norm_num),
    (corrLimitOffset_spec numEx (some "7")).2.2.2.1 "7" 7 rfl (by decide) (by norm_num)
      (by norm_num),
    (corrLimitOffset_spec numEx (some "5000")).2.2.2.2.1 "5000" 5000 rfl (by decide)
      (by norm_num),
    (corrLimitOffset_spec numEx (some "-3")).2.2.2.2.2.1 "-3" (-3) rfl (by decide)
      (by norm_num),
    (corrLimitOffset_spec numEx (some "7")).2.2.2.2.2.2 "7" 7 rfl (by decide) (by norm_num)⟩

/-- Witness for C8 at a concrete payload: numeric lat kept, undefined
device-memory dropped, missing timestamp replaced by receipt time,
array languages comma-joined, truthy consent coerced to 1. -/
theorem geoFields_spec_witness :
    (geoFields geoBodyEx "now").precise_lat = some 10.5
    ∧ (geoFields geoBodyEx "now").device_memory_gb = none
    ∧ (geoFields geoBodyEx "now").precise_timestamp = "now"
    ∧ (geoFields geoBodyEx "now").device_languages = some (jsJoin [.str "en", .str "fr"])
    ∧ ((geoFields geoBodyEx "now").consented = 1 ↔ jsTruthy geoBodyEx.consented = true) := by
  obtain ⟨h1, h2, h3, h4, h5, h6, h7, h8, h9, h10, h11, h12, h13, h14, h15, h16, h17,
    h18, h19, h20, h21⟩ := geoFields_spec geoBodyEx "now"
  exact ⟨h1 10.5 rfl, h10 rfl, h17 rfl, h20 [.str "en", .str "fr"] rfl, h18⟩

/-- Witness for C10: with raw `limit=5000` and `offset=-3`, the echoed
values differ from the raw inputs. -/
theorem apiLogs_echo_spec_witness :
    (apiLogs numEx queryRowsEx (some "5000") (some "-3")).limit ≠ (5000 : Rat)
    ∧ (apiLogs numEx queryRowsEx (some "5000") (some "-3")).offset ≠ (-3 : Rat) := by
  have h := apiLogs_echo_spec numEx queryRowsEx (some "5000") (some "-3")
  exact ⟨h.2.2.2.1 "5000" 5000 rfl (by decide) (by norm_num),
    h.2.2.2.2 "-3" (-3) rfl (by decide) (by norm_num)⟩

end TrackHacker
